import Mathlib

/-!
Verification of the session-sharing broker core of the
ni/arbitrary-session-management repository.

The development shallowly embeds the two RPC servicers
(`DeviceCommServicer` in custom_instr_session_sharing/server/server.py and
`JsonFileLoggerServicer` in file_session_sharing/server/server.py) and the
client behavior adapter (custom_instr_session_sharing/client/client_session/session.py).

Python dictionaries are embedded as association lists with first-match lookup,
in-place update and ordered insertion, matching CPython dict semantics.
RPC handlers become pure functions returning the post-call registry paired
with an `Except` value: `Except.error c` embeds `context.abort(c, ...)`
(which raises and terminates the RPC) and `Except.ok` a normal return.
File-system and socket effects are passed in as explicit parameters that
enumerate exactly the exception classes the source catches.
-/

namespace SessionSharing

/-- Transport-neutral gRPC status categories used by the servicers. -/
inductive StatusCode where
  | invalidArgument
  | notFound
  | alreadyExists
  | permissionDenied
  | internal
  deriving DecidableEq, Repr

/-- Python dict lookup `d.get(k)` / `d[k]`: value of the first (unique) entry
with the given key. -/
def dictGet {α : Type} (d : List (String × α)) (k : String) : Option α :=
  (d.find? (fun p => p.1 == k)).map (fun p => p.2)

/-- Python dict membership test `k in d`. -/
def dictContains {α : Type} (d : List (String × α)) (k : String) : Bool :=
  (d.find? (fun p => p.1 == k)).isSome

/-- Python dict assignment `d[k] = v`: updates the existing entry in place,
otherwise appends a new entry (CPython dicts preserve insertion order). -/
def dictSet {α : Type} (d : List (String × α)) (k : String) (v : α) :
    List (String × α) :=
  match d with
  | [] => [(k, v)]
  | (k₀, v₀) :: t => if k₀ == k then (k, v) :: t else (k₀, v₀) :: dictSet t k v

/-- Python dict removal `d.pop(k)` (the removal part; the caller reads the
value separately via `dictGet`). -/
def dictPop {α : Type} (d : List (String × α)) (k : String) :
    List (String × α) :=
  d.eraseP (fun p => p.1 == k)

/-- Python `str.endswith`, stated structurally on the character data so that
the kernel can evaluate it on concrete inputs. -/
def strEndsWith (s suffix : String) : Bool :=
  suffix.data.isSuffixOf s.data

/-- The keys of the association list are pairwise distinct: the invariant of
every Python dictionary, which the embedding keeps as an explicit hypothesis
where a proof needs it. -/
abbrev KeysNodup {σ : Type} (r : List (String × σ)) : Prop :=
  (r.map Prod.fst).Nodup

/-- The session names stored in the values are pairwise distinct (the fresh
uuid4 discipline of the servicers), with the name projection given
explicitly. -/
abbrev NamesNodupBy {σ : Type} (nm : σ → String) (r : List (String × σ)) : Prop :=
  (r.map (fun p => nm p.2)).Nodup

namespace DeviceComm

/-- Communication protocols, from constants.py. -/
inductive Protocol where
  | SPI
  | I2C
  | UART
  deriving DecidableEq, Repr

/-- The `Session` dataclass of constants.py: session name, protocol, register
map path, register-name-to-value dictionary, reset flag. -/
structure Session where
  session_name : String
  protocol : Protocol
  register_map_path : String
  register_data : List (String × Int)
  reset : Bool
  deriving DecidableEq, Repr

/-- The `self.sessions` dictionary of `DeviceCommServicer`: resource name to
`Session`. -/
abbrev Registry := List (String × Session)

/-- The liveness check the servicer repeats in all three handlers:
`resource_name in self.sessions and self.sessions[resource_name].register_data`
(dict truthiness: nonempty). -/
def hasLiveSession (r : Registry) (resource_name : String) : Bool :=
  match dictGet r resource_name with
  | some s => !s.register_data.isEmpty
  | none => false

/-- `DeviceCommServicer._get_session_by_name`: first values-scan match. -/
def getSessionByName (r : Registry) (session_name : String) : Option Session :=
  (r.find? (fun p => p.2.session_name == session_name)).map (fun p => p.2)

/-- `DeviceCommServicer._get_resource_name_by_session`: first items-scan match. -/
def getResourceNameBySession (r : Registry) (session_name : String) :
    Option String :=
  (r.find? (fun p => p.2.session_name == session_name)).map (fun p => p.1)

/-- The `InitializeResponse` message: session name and new-session flag. -/
structure InitializeResponse where
  session_name : String
  new_session : Bool
  deriving DecidableEq, Repr

/-- `DeviceCommServicer._create_new_session` (server.py lines 501-570).
The liveness check runs first (outside the lock in the source); the insert
(under the lock in the source) stores a fresh session under the resource name.
`fresh` stands for the `str(uuid.uuid4())` result. The except clauses of the
source are dead here because the body performs no I/O. -/
def createNewSession (r : Registry) (resource_name : String)
    (protocol : Protocol) (register_map_path : String)
    (register_data : List (String × Int)) (reset : Bool) (fresh : String) :
    Registry × Except StatusCode InitializeResponse :=
  if hasLiveSession r resource_name then
    (r, .error .alreadyExists)
  else
    (dictSet r resource_name
      { session_name := fresh
        protocol := protocol
        register_map_path := register_map_path
        register_data := register_data
        reset := reset },
     .ok { session_name := fresh, new_session := true })

/-- `DeviceCommServicer._auto_initialize_session` (server.py lines 458-499):
return the existing session when it is present with nonempty register data,
otherwise fall through to the create path. -/
def autoInitializeSession (r : Registry) (resource_name : String)
    (protocol : Protocol) (register_map_path : String)
    (register_data : List (String × Int)) (reset : Bool) (fresh : String) :
    Registry × Except StatusCode InitializeResponse :=
  match dictGet r resource_name with
  | some s =>
    if !s.register_data.isEmpty then
      (r, .ok { session_name := s.session_name, new_session := false })
    else
      createNewSession r resource_name protocol register_map_path
        register_data reset fresh
  | none =>
    createNewSession r resource_name protocol register_map_path
      register_data reset fresh

/-- `DeviceCommServicer._attach_existing_session` (server.py lines 572-609):
return the existing live session, otherwise abort NOT_FOUND. -/
def attachExistingSession (r : Registry) (resource_name : String) :
    Registry × Except StatusCode InitializeResponse :=
  match dictGet r resource_name with
  | some s =>
    if !s.register_data.isEmpty then
      (r, .ok { session_name := s.session_name, new_session := false })
    else
      (r, .error .notFound)
  | none => (r, .error .notFound)

/-- Modelled from the spec: the generated protobuf module
(`device_comm_service_pb2` / `json_logger_pb2`) is not under src/ (only the
grpc service stub is). The spec names three physical behaviors; protobuf enum
numbering puts the UNSPECIFIED member at 0 and the remaining members at the
following tag numbers, in declaration order. -/
def SESSION_INITIALIZATION_BEHAVIOR_UNSPECIFIED : Nat := 0

/-- Modelled from the spec: tag number of the INITIALIZE_NEW member of the
generated initialization-behavior protobuf enum (generated module absent from
src/). -/
def SESSION_INITIALIZATION_BEHAVIOR_INITIALIZE_NEW : Nat := 1

/-- Modelled from the spec: tag number of the ATTACH_TO_EXISTING member of the
generated initialization-behavior protobuf enum (generated module absent from
src/). -/
def SESSION_INITIALIZATION_BEHAVIOR_ATTACH_TO_EXISTING : Nat := 2

/-- The fields of `InitializeRequest` that the servicer reads. -/
structure InitializeRequest where
  resource_name : String
  protocol : Protocol
  register_map_path : String
  initialization_behavior : Nat
  reset : Bool
  deriving DecidableEq, Repr

/-- Outcome of the CSV read in `DeviceCommServicer.Initialize`: the filtered
register data on success, or the exception class the source catches
(`KeyError`, or any other `Exception`). -/
inductive CsvReadResult where
  | ok (data : List (String × Int))
  | keyError
  | otherError
  deriving DecidableEq, Repr

/-- `DeviceCommServicer.Initialize` (server.py lines 100-171): validate the
register-map extension, the file existence and the CSV contents before any
registry access, then dispatch on the initialization behavior through the
handler dictionary (an unknown behavior aborts INVALID_ARGUMENT).
`file_exists` and `csv` stand for the file-system interaction. -/
def Initialize (r : Registry) (req : InitializeRequest) (file_exists : Bool)
    (csv : CsvReadResult) (fresh : String) :
    Registry × Except StatusCode InitializeResponse :=
  if !strEndsWith req.register_map_path ".csv" then
    (r, .error .invalidArgument)
  else if !file_exists then
    (r, .error .notFound)
  else
    match csv with
    | .keyError => (r, .error .invalidArgument)
    | .otherError => (r, .error .internal)
    | .ok register_data =>
      if req.initialization_behavior == SESSION_INITIALIZATION_BEHAVIOR_UNSPECIFIED then
        autoInitializeSession r req.resource_name req.protocol
          req.register_map_path register_data req.reset fresh
      else if req.initialization_behavior == SESSION_INITIALIZATION_BEHAVIOR_INITIALIZE_NEW then
        createNewSession r req.resource_name req.protocol
          req.register_map_path register_data req.reset fresh
      else if req.initialization_behavior == SESSION_INITIALIZATION_BEHAVIOR_ATTACH_TO_EXISTING then
        attachExistingSession r req.resource_name
      else
        (r, .error .invalidArgument)

/-- Mutation of the session object found by the `validate_session` scan:
updates the first values-scan match in place (the Python handlers mutate the
very object stored in the dictionary). -/
def updateSessionByName (r : Registry) (session_name : String)
    (f : Session → Session) : Registry :=
  match r with
  | [] => []
  | (k, s) :: t =>
    if s.session_name == session_name then (k, f s) :: t
    else (k, s) :: updateSessionByName t session_name f

/-- `DeviceCommServicer.ReadRegister` (server.py lines 173-208), including the
`validate_session` decorator: unknown session aborts NOT_FOUND; a register
name missing from the register data aborts NOT_FOUND; otherwise the stored
value is returned. The final branch embeds the (unreachable) KeyError
handler. -/
def ReadRegister (r : Registry) (session_name register_name : String) :
    Registry × Except StatusCode Int :=
  match getSessionByName r session_name with
  | none => (r, .error .notFound)
  | some s =>
    if !dictContains s.register_data register_name then
      (r, .error .notFound)
    else
      match dictGet s.register_data register_name with
      | some v => (r, .ok v)
      | none => (r, .error .notFound)

/-- `DeviceCommServicer.WriteRegister` (server.py lines 210-240), including
the `validate_session` decorator: unknown session aborts NOT_FOUND;
otherwise `session.register_data[name] = value` stores the value. Dictionary
assignment never raises KeyError, so the NOT_FOUND handler of the source has
no counterpart branch here. -/
def WriteRegister (r : Registry) (session_name register_name : String)
    (value : Int) : Registry × Except StatusCode Unit :=
  match getSessionByName r session_name with
  | none => (r, .error .notFound)
  | some _ =>
    (updateSessionByName r session_name
      (fun s => { s with register_data := dictSet s.register_data register_name value }),
     .ok ())

/-- The numeric values of the `GPIOChannel` enumeration of constants.py
(CH0 through CH7), as listed by the channel validation of the GPIO
handlers. -/
def gpioChannelValues : List Nat := [0, 1, 2, 3, 4, 5, 6, 7]

/-- The numeric values of the `GPIOPort` enumeration of constants.py
(PORT0 through PORT3), as listed by the port validation of the GPIO
handlers. -/
def gpioPortValues : List Nat := [0, 1, 2, 3]

/-- The values of the GPIO channel state enumeration (LOW = False,
HIGH = True in constants.py), as listed by the state validation of
WriteGpioChannel. -/
def gpioChannelStateValues : List Bool := [false, true]

/-- `DeviceCommServicer.ReadGpioChannel` (server.py lines 242-277),
including the `validate_session` decorator: unknown session aborts
NOT_FOUND; a channel outside the GPIOChannel values aborts
INVALID_ARGUMENT; otherwise a simulated random state is returned (`sim`
stands for the random.choice result). The registry is never mutated. -/
def ReadGpioChannel (r : Registry) (session_name : String) (channel : Nat)
    (sim : Bool) : Registry × Except StatusCode Bool :=
  match getSessionByName r session_name with
  | none => (r, .error .notFound)
  | some _ =>
    if !gpioChannelValues.contains channel then (r, .error .invalidArgument)
    else (r, .ok sim)

/-- `DeviceCommServicer.WriteGpioChannel` (server.py lines 279-319),
including the `validate_session` decorator: unknown session aborts
NOT_FOUND; a channel outside the GPIOChannel values or a state outside the
channel-state values aborts INVALID_ARGUMENT; otherwise the simulated write
succeeds. The registry is never mutated (the port field of the request is
not validated or used by the body). -/
def WriteGpioChannel (r : Registry) (session_name : String)
    (_port channel : Nat) (state : Bool) :
    Registry × Except StatusCode Unit :=
  match getSessionByName r session_name with
  | none => (r, .error .notFound)
  | some _ =>
    if !gpioChannelValues.contains channel then (r, .error .invalidArgument)
    else if !gpioChannelStateValues.contains state then
      (r, .error .invalidArgument)
    else (r, .ok ())

/-- `DeviceCommServicer.ReadGpioPort` (server.py lines 321-362), including
the `validate_session` decorator: unknown session aborts NOT_FOUND; a port
outside the GPIOPort values or a mask outside range(0, 256) aborts
INVALID_ARGUMENT; otherwise a simulated random byte is returned (`sim`
stands for the random.choice result). The registry is never mutated. -/
def ReadGpioPort (r : Registry) (session_name : String) (port mask : Nat)
    (sim : Nat) : Registry × Except StatusCode Nat :=
  match getSessionByName r session_name with
  | none => (r, .error .notFound)
  | some _ =>
    if !gpioPortValues.contains port then (r, .error .invalidArgument)
    else if !(mask < 256) then (r, .error .invalidArgument)
    else (r, .ok sim)

/-- `DeviceCommServicer.WriteGpioPort` (server.py lines 364-409), including
the `validate_session` decorator: unknown session aborts NOT_FOUND; a port
outside the GPIOPort values, a mask outside range(0, 256) or a state
outside range(0, 256) aborts INVALID_ARGUMENT; otherwise the simulated
write succeeds. The registry is never mutated. -/
def WriteGpioPort (r : Registry) (session_name : String)
    (port mask state : Nat) : Registry × Except StatusCode Unit :=
  match getSessionByName r session_name with
  | none => (r, .error .notFound)
  | some _ =>
    if !gpioPortValues.contains port then (r, .error .invalidArgument)
    else if !(mask < 256) then (r, .error .invalidArgument)
    else if !(state < 256) then (r, .error .invalidArgument)
    else (r, .ok ())

/-- `DeviceCommServicer.Close` (server.py lines 411-448), including the
`validate_session` decorator. After the decorator finds the session, the body
runs inside a try block: it re-derives the resource name, pops the registry
entry, and only then tests `if not session.register_data`. That abort raises
inside the try, so the generic `except Exception` handler re-aborts with
INTERNAL; the pop is not undone. The two `.error .internal` fallbacks for the
lookups embed `sessions.pop` raising KeyError into the same handler. -/
def Close (r : Registry) (session_name : String) :
    Registry × Except StatusCode Unit :=
  match getSessionByName r session_name with
  | none => (r, .error .notFound)
  | some _ =>
    match getResourceNameBySession r session_name with
    | none => (r, .error .internal)
    | some resource_name =>
      match dictGet r resource_name with
      | none => (r, .error .internal)
      | some s =>
        let r₁ := dictPop r resource_name
        if s.register_data.isEmpty then
          (r₁, .error .internal)
        else
          (r₁, .ok ())

/-- `DeviceCommServicer.clean_up`: empties every register dictionary and
clears the session dictionary. -/
def cleanUp (_r : Registry) : Registry := []

end DeviceComm

namespace JsonLogger

/-- The `Session` dataclass of file_session_sharing/server/server.py: unique
session name plus the opened file handle, of which only the observable
`closed` flag matters to the broker core. -/
structure FSession where
  session_name : String
  closed : Bool
  deriving DecidableEq, Repr

/-- The `self.sessions` dictionary of `JsonFileLoggerServicer`: file path to
session. -/
abbrev FRegistry := List (String × FSession)

/-- The `InitializeFileResponse` message. -/
structure InitializeFileResponse where
  session_name : String
  new_session : Bool
  deriving DecidableEq, Repr

/-- The liveness check of the file servicer:
`file_path in self.sessions and not self.sessions[file_path].file_handle.closed`. -/
def fHasLiveSession (r : FRegistry) (file_path : String) : Bool :=
  match SessionSharing.dictGet r file_path with
  | some s => !s.closed
  | none => false

/-- `JsonFileLoggerServicer._get_session_by_name`: first values-scan match
whose name matches and whose handle is still open. -/
def fGetSessionByName (r : FRegistry) (session_name : String) :
    Option FSession :=
  (r.find? (fun p => p.2.session_name == session_name && !p.2.closed)).map
    (fun p => p.2)

/-- `JsonFileLoggerServicer._get_file_path_by_session_name`: first items-scan
match (no closed check). -/
def fGetFilePathBySessionName (r : FRegistry) (session_name : String) :
    Option String :=
  (r.find? (fun p => p.2.session_name == session_name)).map (fun p => p.1)

/-- Outcome of `open(file_path, "a+")` in `_create_new_session`, enumerating
the exception classes the source catches. -/
inductive OpenResult where
  | ok
  | fileNotFoundError
  | permissionError
  | osError
  | otherError
  deriving DecidableEq, Repr

/-- `JsonFileLoggerServicer._create_new_session` (server.py lines 285-341):
the liveness check runs first (outside the lock in the source); then the file
is opened (each caught exception class aborts with its category) and a fresh
session is inserted under the lock. -/
def fCreateNewSession (r : FRegistry) (file_path : String) (fresh : String)
    (opened : OpenResult) : FRegistry × Except StatusCode InitializeFileResponse :=
  if fHasLiveSession r file_path then
    (r, .error .alreadyExists)
  else
    match opened with
    | .ok =>
      (SessionSharing.dictSet r file_path { session_name := fresh, closed := false },
       .ok { session_name := fresh, new_session := true })
    | .fileNotFoundError => (r, .error .notFound)
    | .permissionError => (r, .error .permissionDenied)
    | .osError => (r, .error .internal)
    | .otherError => (r, .error .internal)

/-- `JsonFileLoggerServicer._auto_initialize_session` (server.py lines
257-283). -/
def fAutoInitializeSession (r : FRegistry) (file_path : String)
    (fresh : String) (opened : OpenResult) :
    FRegistry × Except StatusCode InitializeFileResponse :=
  match SessionSharing.dictGet r file_path with
  | some s =>
    if !s.closed then
      (r, .ok { session_name := s.session_name, new_session := false })
    else
      fCreateNewSession r file_path fresh opened
  | none => fCreateNewSession r file_path fresh opened

/-- `JsonFileLoggerServicer._attach_existing_session` (server.py lines
343-372). -/
def fAttachExistingSession (r : FRegistry) (file_path : String) :
    FRegistry × Except StatusCode InitializeFileResponse :=
  match SessionSharing.dictGet r file_path with
  | some s =>
    if !s.closed then
      (r, .ok { session_name := s.session_name, new_session := false })
    else
      (r, .error .notFound)
  | none => (r, .error .notFound)

/-- `JsonFileLoggerServicer.InitializeFile` (server.py lines 76-110):
NDJSON validation before any registry access, then dispatch through the
handler dictionary. `valid_ndjson` stands for `_valid_ndjson_file`, whose
file inspection is external I/O. -/
def InitializeFile (r : FRegistry) (file_path : String)
    (initialization_behavior : Nat) (valid_ndjson : Bool)
    (opened : OpenResult) (fresh : String) :
    FRegistry × Except StatusCode InitializeFileResponse :=
  if !valid_ndjson then
    (r, .error .invalidArgument)
  else if initialization_behavior == DeviceComm.SESSION_INITIALIZATION_BEHAVIOR_UNSPECIFIED then
    fAutoInitializeSession r file_path fresh opened
  else if initialization_behavior == DeviceComm.SESSION_INITIALIZATION_BEHAVIOR_INITIALIZE_NEW then
    fCreateNewSession r file_path fresh opened
  else if initialization_behavior == DeviceComm.SESSION_INITIALIZATION_BEHAVIOR_ATTACH_TO_EXISTING then
    fAttachExistingSession r file_path
  else
    (r, .error .invalidArgument)

/-- Outcome of the write-and-flush in `LogMeasurementData`, enumerating the
exception classes the source catches and their categories (the `except
OSError` clause precedes `except PermissionError`, so a permission failure,
being an OSError, is caught by the first clause as INTERNAL). -/
inductive WriteResult where
  | ok
  | osError
  | otherError
  deriving DecidableEq, Repr

/-- `JsonFileLoggerServicer.LogMeasurementData` (server.py lines 112-184):
session lookup by name (with the closed check), NOT_FOUND when absent,
otherwise the line is written to the handle (no registry mutation). -/
def LogMeasurementData (r : FRegistry) (session_name : String)
    (written : WriteResult) : FRegistry × Except StatusCode Unit :=
  match fGetSessionByName r session_name with
  | none => (r, .error .notFound)
  | some _ =>
    match written with
    | .ok => (r, .ok ())
    | .osError => (r, .error .internal)
    | .otherError => (r, .error .internal)

/-- `JsonFileLoggerServicer.CloseFile` (server.py lines 186-227): the
path lookup failing aborts NOT_FOUND outside the try; inside the try the
entry is popped, and the already-closed abort raises into the generic
`except Exception` handler, surfacing INTERNAL with the pop not undone;
otherwise the handle is closed (the session is already out of the registry). -/
def CloseFile (r : FRegistry) (session_name : String) :
    FRegistry × Except StatusCode Unit :=
  match fGetFilePathBySessionName r session_name with
  | none => (r, .error .notFound)
  | some file_path =>
    match SessionSharing.dictGet r file_path with
    | none => (r, .error .internal)
    | some s =>
      let r₁ := SessionSharing.dictPop r file_path
      if s.closed then
        (r₁, .error .internal)
      else
        (r₁, .ok ())

/-- `JsonFileLoggerServicer.clean_up`: closes every open handle and clears
the session dictionary. -/
def fCleanUp (_r : FRegistry) : FRegistry := []

/-- Registry states reachable through the RPC surface of the file servicer,
starting from the empty dictionary the constructor builds. -/
inductive FReach : FRegistry → Prop where
  | empty : FReach []
  | rpcInit (r : FRegistry) (file_path : String) (behavior : Nat)
      (valid_ndjson : Bool) (opened : OpenResult) (fresh : String) :
      FReach r →
      FReach (InitializeFile r file_path behavior valid_ndjson opened fresh).1
  | rpcLog (r : FRegistry) (session_name : String) (written : WriteResult) :
      FReach r → FReach (LogMeasurementData r session_name written).1
  | rpcClose (r : FRegistry) (session_name : String) :
      FReach r → FReach (CloseFile r session_name).1
  | rpcCleanUp (r : FRegistry) : FReach r → FReach (fCleanUp r)

end JsonLogger

namespace ClientSession

/-- The five client-visible logical behaviors, from the
ni_measurement_plugin_sdk_service session-management API. -/
inductive SessionInitializationBehavior where
  | AUTO
  | INITIALIZE_SERVER_SESSION
  | ATTACH_TO_SERVER_SESSION
  | INITIALIZE_SESSION_THEN_DETACH
  | ATTACH_TO_SESSION_THEN_CLOSE
  deriving DecidableEq, Repr

/-- Modelled from the spec: `SessionInitializationBehavior` is an IntEnum of
the external ni_measurement_plugin_sdk_service package (not under src/); its
members carry the numeric values 0 through 4 in declaration order, and
IntEnum members compare equal to plain integers by numeric value. -/
def SessionInitializationBehavior.val : SessionInitializationBehavior → Nat
  | .AUTO => 0
  | .INITIALIZE_SERVER_SESSION => 1
  | .ATTACH_TO_SERVER_SESSION => 2
  | .INITIALIZE_SESSION_THEN_DETACH => 3
  | .ATTACH_TO_SESSION_THEN_CLOSE => 4

/-- `_SERVER_INITIALIZATION_BEHAVIOR_MAP` of
custom_instr_session_sharing/client/client_session/session.py (lines 45-57):
the five logical behaviors mapped onto the three physical protobuf values the
server implements. -/
def serverInitializationBehaviorMap :
    SessionInitializationBehavior → Nat
  | .AUTO => DeviceComm.SESSION_INITIALIZATION_BEHAVIOR_UNSPECIFIED
  | .INITIALIZE_SERVER_SESSION =>
      DeviceComm.SESSION_INITIALIZATION_BEHAVIOR_INITIALIZE_NEW
  | .ATTACH_TO_SERVER_SESSION =>
      DeviceComm.SESSION_INITIALIZATION_BEHAVIOR_ATTACH_TO_EXISTING
  | .INITIALIZE_SESSION_THEN_DETACH =>
      DeviceComm.SESSION_INITIALIZATION_BEHAVIOR_INITIALIZE_NEW
  | .ATTACH_TO_SESSION_THEN_CLOSE =>
      DeviceComm.SESSION_INITIALIZATION_BEHAVIOR_ATTACH_TO_EXISTING

/-- The close decision of `DeviceCommunicationClient.__exit__` in the
client_session variant (session.py lines 125-161), as a function of the value
the constructor stored in `self._initialization_behavior`. The constructor
(line 99) stores the MAPPED protobuf integer, and the membership and equality
tests of the exit path compare that integer against logical
`SessionInitializationBehavior` members, which is numeric comparison for an
IntEnum. -/
def exitDecision (stored : Nat) (new_session : Bool) : Bool :=
  (stored == SessionInitializationBehavior.INITIALIZE_SERVER_SESSION.val ||
   stored == SessionInitializationBehavior.ATTACH_TO_SESSION_THEN_CLOSE.val) ||
  (stored == SessionInitializationBehavior.AUTO.val && new_session)

/-- Whether the client_session variant calls Close at scope exit for a given
requested logical behavior: the exit decision applied to the stored mapped
value. -/
def clientSessionClosesOnExit (behavior : SessionInitializationBehavior)
    (new_session : Bool) : Bool :=
  exitDecision (serverInitializationBehaviorMap behavior) new_session

/-- The close decision of the sibling device_communication_client variant,
whose constructor (its session.py line 113) stores the LOGICAL behavior
unchanged, so the same exit-path comparisons act on the logical value. -/
def deviceCommunicationClientClosesOnExit
    (behavior : SessionInitializationBehavior) (new_session : Bool) : Bool :=
  exitDecision behavior.val new_session

/-- The close-on-exit policy of the behavior table in the spec (section 4.1):
close unconditionally for INITIALIZE_NEW and ATTACH_THEN_CLOSE, close only a
newly created session for AUTO, never close for ATTACH_TO_EXISTING and
INITIALIZE_THEN_DETACH. -/
def specClosePolicy (behavior : SessionInitializationBehavior)
    (new_session : Bool) : Bool :=
  match behavior with
  | .AUTO => new_session
  | .INITIALIZE_SERVER_SESSION => true
  | .ATTACH_TO_SERVER_SESSION => false
  | .INITIALIZE_SESSION_THEN_DETACH => false
  | .ATTACH_TO_SESSION_THEN_CLOSE => true

end ClientSession

namespace ConcurrentCreate

/-- Control point of one server worker executing
`DeviceCommServicer._create_new_session` for a fixed key: before the liveness
check (which the source performs WITHOUT holding `self.lock`, server.py line
529), between the check and the locked insert (lines 537-544), or returned. -/
inductive Phase where
  | start
  | readyToInsert
  | finished (result : Except StatusCode DeviceComm.InitializeResponse)

/-- One step of a single worker running `_create_new_session(resource_name,
...)` that would insert `sess` (whose `session_name` is its fresh uuid):
the unlocked check either aborts ALREADY_EXISTS or falls through; the insert
runs atomically because it alone is guarded by `with self.lock`. -/
inductive workerStep (resource_name : String) (sess : DeviceComm.Session) :
    Phase → DeviceComm.Registry → Phase → DeviceComm.Registry → Prop where
  | checkLive (r : DeviceComm.Registry) :
      DeviceComm.hasLiveSession r resource_name = true →
      workerStep resource_name sess .start r
        (.finished (.error .alreadyExists)) r
  | checkFree (r : DeviceComm.Registry) :
      DeviceComm.hasLiveSession r resource_name = false →
      workerStep resource_name sess .start r .readyToInsert r
  | lockedInsert (r : DeviceComm.Registry) :
      workerStep resource_name sess .readyToInsert r
        (.finished (.ok { session_name := sess.session_name, new_session := true }))
        (SessionSharing.dictSet r resource_name sess)

/-- Shared state of two workers racing on the one registry of the servicer. -/
structure RaceState where
  registry : DeviceComm.Registry
  worker1 : Phase
  worker2 : Phase

/-- Interleaving semantics: either worker takes its next step on the shared
registry. -/
inductive raceStep (resource_name : String) (sess1 sess2 : DeviceComm.Session) :
    RaceState → RaceState → Prop where
  | left (c : RaceState) (p : Phase) (r : DeviceComm.Registry) :
      workerStep resource_name sess1 c.worker1 c.registry p r →
      raceStep resource_name sess1 sess2 c ⟨r, p, c.worker2⟩
  | right (c : RaceState) (p : Phase) (r : DeviceComm.Registry) :
      workerStep resource_name sess2 c.worker2 c.registry p r →
      raceStep resource_name sess1 sess2 c ⟨r, c.worker1, p⟩

/-- A concrete session the first racing worker would build (its fresh uuid
being "u1"), with nonempty register data so that the session counts as
live. -/
def firstRacerSession : DeviceComm.Session :=
  { session_name := "u1", protocol := .SPI, register_map_path := "m.csv",
    register_data := [("R0", 5)], reset := false }

/-- A concrete session the second racing worker would build (its fresh uuid
being "u2"). -/
def secondRacerSession : DeviceComm.Session :=
  { session_name := "u2", protocol := .SPI, register_map_path := "m.csv",
    register_data := [("R0", 5)], reset := false }

end ConcurrentCreate

/-! Helper lemmas about the dictionary embedding. -/

theorem dictGet_dictSet_self {α : Type} (d : List (String × α)) (k : String)
    (v : α) : dictGet (dictSet d k v) k = some v := by
  induction d with
  | nil => simp [dictGet, dictSet]
  | cons p t ih =>
    obtain ⟨k₀, v₀⟩ := p
    by_cases h : k₀ = k
    · subst h
      simp [dictGet, dictSet]
    · have hb : (k₀ == k) = false := beq_eq_false_iff_ne.mpr h
      simp only [dictSet, hb, Bool.false_eq_true, if_false]
      simpa [dictGet, List.find?_cons, hb] using ih

theorem dictContains_dictSet_self {α : Type} (d : List (String × α))
    (k : String) (v : α) : dictContains (dictSet d k v) k = true := by
  have h := dictGet_dictSet_self d k v
  simp only [dictGet, Option.map_eq_some'] at h
  obtain ⟨p, hp, -⟩ := h
  simp [dictContains, hp]

theorem mem_dictSet {α : Type} {d : List (String × α)} {k : String} {v : α}
    {p : String × α} (h : p ∈ dictSet d k v) : p ∈ d ∨ p = (k, v) := by
  induction d with
  | nil => simpa [dictSet] using h
  | cons q t ih =>
    obtain ⟨k₀, v₀⟩ := q
    by_cases hk : (k₀ == k) = true
    · simp only [dictSet, hk, if_true] at h
      rcases List.mem_cons.mp h with h | h
      · exact Or.inr h
      · exact Or.inl (List.mem_cons_of_mem _ h)
    · simp only [dictSet, hk, if_false] at h
      rcases List.mem_cons.mp h with h | h
      · exact Or.inl (h ▸ List.mem_cons_self _ _)
      · rcases ih h with h | h
        · exact Or.inl (List.mem_cons_of_mem _ h)
        · exact Or.inr h

theorem find_key_of_mem_nodup {σ : Type} {r : List (String × σ)} {k : String}
    {s : σ} (hmem : (k, s) ∈ r) (hkeys : KeysNodup r) :
    r.find? (fun p => p.1 == k) = some (k, s) := by
  induction r with
  | nil => cases hmem
  | cons q t ih =>
    obtain ⟨k₀, s₀⟩ := q
    simp only [KeysNodup, List.map_cons, List.nodup_cons] at hkeys
    rcases List.mem_cons.mp hmem with h | h
    · cases h
      simp [List.find?_cons]
    · have hk : k ∈ t.map Prod.fst := List.mem_map_of_mem Prod.fst h
      have hne : (k₀ == k) = false := by
        refine beq_eq_false_iff_ne.mpr ?_
        rintro rfl
        exact hkeys.1 hk
      simpa [List.find?_cons, hne] using ih h hkeys.2

theorem find_name_eraseP_none {σ : Type} (nm : σ → String) :
    ∀ (r : List (String × σ)) (n k : String) (s : σ),
      r.find? (fun p => nm p.2 == n) = some (k, s) →
      KeysNodup r → NamesNodupBy nm r →
      (r.eraseP (fun p => p.1 == k)).find? (fun p => nm p.2 == n) = none := by
  intro r
  induction r with
  | nil => intro n k s h; simp at h
  | cons q t ih =>
    intro n k s hfind hkeys hnames
    obtain ⟨k₀, s₀⟩ := q
    simp only [KeysNodup, List.map_cons, List.nodup_cons] at hkeys
    simp only [NamesNodupBy, List.map_cons, List.nodup_cons] at hnames
    by_cases hn : (nm s₀ == n) = true
    · have hks : k₀ = k ∧ s₀ = s := by
        have : some ((k₀, s₀) : String × σ) = some (k, s) := by
          simpa [List.find?_cons, hn] using hfind
        cases this; exact ⟨rfl, rfl⟩
      obtain ⟨rfl, rfl⟩ := hks
      have herase : ((k₀, s₀) :: t).eraseP (fun p => p.1 == k₀) = t := by
        simp [List.eraseP_cons]
      rw [herase]
      rw [List.find?_eq_none]
      intro p hp hpn
      have hpn' : nm p.2 = n := by simpa using hpn
      have hs₀ : nm s₀ = n := by simpa using hn
      refine hnames.1 ?_
      rw [hs₀]
      exact hpn' ▸ List.mem_map_of_mem (fun p => nm p.2) hp
    · have hfind' : t.find? (fun p => nm p.2 == n) = some (k, s) := by
        simpa [List.find?_cons, hn] using hfind
      have hmem : (k, s) ∈ t := List.mem_of_find?_eq_some hfind'
      have hne : (k₀ == k) = false := by
        refine beq_eq_false_iff_ne.mpr ?_
        rintro rfl
        exact hkeys.1 (List.mem_map_of_mem Prod.fst hmem)
      have herase : ((k₀, s₀) :: t).eraseP (fun p => p.1 == k)
          = (k₀, s₀) :: t.eraseP (fun p => p.1 == k) := by
        simp [List.eraseP_cons, hne]
      rw [herase]
      simpa [List.find?_cons, hn] using ih n k s hfind' hkeys.2 hnames.2

/-! Helper lemmas about the RPC handlers. -/

theorem getSessionByName_Close_none (r : DeviceComm.Registry) (n : String)
    (hkeys : KeysNodup r)
    (hnames : NamesNodupBy DeviceComm.Session.session_name r) :
    DeviceComm.getSessionByName (DeviceComm.Close r n).1 n = none := by
  cases hf : r.find? (fun p => p.2.session_name == n) with
  | none => simp [DeviceComm.Close, DeviceComm.getSessionByName, hf]
  | some q =>
    obtain ⟨k, s⟩ := q
    have hmem : (k, s) ∈ r := List.mem_of_find?_eq_some hf
    have hkey : r.find? (fun p => p.1 == k) = some (k, s) :=
      find_key_of_mem_nodup hmem hkeys
    have herase := find_name_eraseP_none DeviceComm.Session.session_name r n
      k s hf hkeys hnames
    by_cases hemp : s.register_data.isEmpty
    · simp [DeviceComm.Close, DeviceComm.getSessionByName,
        DeviceComm.getResourceNameBySession, dictGet, dictPop, hf, hkey, hemp,
        herase]
    · simp [DeviceComm.Close, DeviceComm.getSessionByName,
        DeviceComm.getResourceNameBySession, dictGet, dictPop, hf, hkey, hemp,
        herase]

theorem fGetFilePathBySessionName_CloseFile_none (r : JsonLogger.FRegistry)
    (n : String) (hkeys : KeysNodup r)
    (hnames : NamesNodupBy JsonLogger.FSession.session_name r) :
    JsonLogger.fGetFilePathBySessionName (JsonLogger.CloseFile r n).1 n
      = none := by
  cases hf : r.find? (fun p => p.2.session_name == n) with
  | none =>
    simp [JsonLogger.CloseFile, JsonLogger.fGetFilePathBySessionName, hf]
  | some q =>
    obtain ⟨k, s⟩ := q
    have hmem : (k, s) ∈ r := List.mem_of_find?_eq_some hf
    have hkey : r.find? (fun p => p.1 == k) = some (k, s) :=
      find_key_of_mem_nodup hmem hkeys
    have herase := find_name_eraseP_none JsonLogger.FSession.session_name r n
      k s hf hkeys hnames
    by_cases hcl : s.closed
    · simp [JsonLogger.CloseFile, JsonLogger.fGetFilePathBySessionName,
        dictGet, dictPop, hf, hkey, hcl, herase]
    · simp [JsonLogger.CloseFile, JsonLogger.fGetFilePathBySessionName,
        dictGet, dictPop, hf, hkey, hcl, herase]

theorem fGetSessionByName_none_of_path_none (r : JsonLogger.FRegistry)
    (n : String) (h : JsonLogger.fGetFilePathBySessionName r n = none) :
    JsonLogger.fGetSessionByName r n = none := by
  simp only [JsonLogger.fGetFilePathBySessionName, Option.map_eq_none',
    List.find?_eq_none] at h
  simp only [JsonLogger.fGetSessionByName, Option.map_eq_none',
    List.find?_eq_none]
  intro p hp
  have := h p hp
  simp_all

theorem getSessionByName_updateSessionByName (r : DeviceComm.Registry)
    (n : String) (f : DeviceComm.Session → DeviceComm.Session)
    (s : DeviceComm.Session) (h : DeviceComm.getSessionByName r n = some s)
    (hname : (f s).session_name = s.session_name) :
    DeviceComm.getSessionByName (DeviceComm.updateSessionByName r n f) n
      = some (f s) := by
  induction r with
  | nil => simp [DeviceComm.getSessionByName] at h
  | cons q t ih =>
    obtain ⟨k₀, s₀⟩ := q
    by_cases hn : (s₀.session_name == n) = true
    · have hs : s₀ = s := by
        have : some s₀ = some s := by
          simpa [DeviceComm.getSessionByName, List.find?_cons, hn] using h
        cases this; rfl
      subst hs
      have hfn : ((f s₀).session_name == n) = true := by
        rw [hname]; exact hn
      simp [DeviceComm.updateSessionByName, hn, DeviceComm.getSessionByName,
        List.find?_cons, hfn]
    · have h' : DeviceComm.getSessionByName t n = some s := by
        simpa [DeviceComm.getSessionByName, List.find?_cons, hn] using h
      simpa [DeviceComm.updateSessionByName, hn, DeviceComm.getSessionByName,
        List.find?_cons] using ih h'

theorem createNewSession_fst_of_error (r : DeviceComm.Registry) (k : String)
    (proto : DeviceComm.Protocol) (path : String)
    (data : List (String × Int)) (reset : Bool) (fresh : String)
    (e : StatusCode)
    (h : (DeviceComm.createNewSession r k proto path data reset fresh).2
      = .error e) :
    (DeviceComm.createNewSession r k proto path data reset fresh).1 = r := by
  by_cases hl : DeviceComm.hasLiveSession r k
  · simp [DeviceComm.createNewSession, hl]
  · simp [DeviceComm.createNewSession, hl] at h

theorem autoInitializeSession_fst_of_error (r : DeviceComm.Registry)
    (k : String) (proto : DeviceComm.Protocol) (path : String)
    (data : List (String × Int)) (reset : Bool) (fresh : String)
    (e : StatusCode)
    (h : (DeviceComm.autoInitializeSession r k proto path data reset fresh).2
      = .error e) :
    (DeviceComm.autoInitializeSession r k proto path data reset fresh).1
      = r := by
  cases hg : dictGet r k with
  | some s =>
    by_cases he : s.register_data.isEmpty
    · simp only [DeviceComm.autoInitializeSession, hg, he,
        Bool.not_true, Bool.false_eq_true, if_false] at h ⊢
      exact createNewSession_fst_of_error r k proto path data reset fresh e h
    · simp [DeviceComm.autoInitializeSession, hg, he] at h
  | none =>
    simp only [DeviceComm.autoInitializeSession, hg] at h ⊢
    exact createNewSession_fst_of_error r k proto path data reset fresh e h

theorem attachExistingSession_fst (r : DeviceComm.Registry) (k : String) :
    (DeviceComm.attachExistingSession r k).1 = r := by
  cases hg : dictGet r k with
  | some s =>
    by_cases he : s.register_data.isEmpty
    · simp [DeviceComm.attachExistingSession, hg, he]
    · simp [DeviceComm.attachExistingSession, hg, he]
  | none => simp [DeviceComm.attachExistingSession, hg]

theorem Initialize_fst_of_error (r : DeviceComm.Registry)
    (req : DeviceComm.InitializeRequest) (fe : Bool)
    (csv : DeviceComm.CsvReadResult) (fresh : String) (e : StatusCode)
    (h : (DeviceComm.Initialize r req fe csv fresh).2 = .error e) :
    (DeviceComm.Initialize r req fe csv fresh).1 = r := by
  by_cases h₁ : strEndsWith req.register_map_path ".csv"
  · by_cases h₂ : fe
    · cases csv with
      | keyError => simp [DeviceComm.Initialize, h₁, h₂]
      | otherError => simp [DeviceComm.Initialize, h₁, h₂]
      | ok data =>
        by_cases h₃ : req.initialization_behavior
            == DeviceComm.SESSION_INITIALIZATION_BEHAVIOR_UNSPECIFIED
        · simp only [DeviceComm.Initialize, h₁, h₂, h₃, Bool.not_true,
            Bool.false_eq_true, if_false, if_true] at h ⊢
          exact autoInitializeSession_fst_of_error r req.resource_name
            req.protocol req.register_map_path data req.reset fresh e h
        · by_cases h₄ : req.initialization_behavior
              == DeviceComm.SESSION_INITIALIZATION_BEHAVIOR_INITIALIZE_NEW
          · simp only [DeviceComm.Initialize, h₁, h₂, h₃, h₄, Bool.not_true,
              Bool.false_eq_true, if_false, if_true] at h ⊢
            exact createNewSession_fst_of_error r req.resource_name
              req.protocol req.register_map_path data req.reset fresh e h
          · by_cases h₅ : req.initialization_behavior
                == DeviceComm.SESSION_INITIALIZATION_BEHAVIOR_ATTACH_TO_EXISTING
            · simp only [DeviceComm.Initialize, h₁, h₂, h₃, h₄, h₅,
                Bool.not_true, Bool.false_eq_true, if_false, if_true]
              exact attachExistingSession_fst r req.resource_name
            · simp [DeviceComm.Initialize, h₁, h₂, h₃, h₄, h₅]
    · simp [DeviceComm.Initialize, h₁, h₂]
  · simp [DeviceComm.Initialize, h₁]

theorem fCreateNewSession_fst_of_error (r : JsonLogger.FRegistry)
    (fp fresh : String) (opened : JsonLogger.OpenResult) (e : StatusCode)
    (h : (JsonLogger.fCreateNewSession r fp fresh opened).2 = .error e) :
    (JsonLogger.fCreateNewSession r fp fresh opened).1 = r := by
  by_cases hl : JsonLogger.fHasLiveSession r fp
  · simp [JsonLogger.fCreateNewSession, hl]
  · cases opened <;> simp_all [JsonLogger.fCreateNewSession, hl]

theorem fAutoInitializeSession_fst_of_error (r : JsonLogger.FRegistry)
    (fp fresh : String) (opened : JsonLogger.OpenResult) (e : StatusCode)
    (h : (JsonLogger.fAutoInitializeSession r fp fresh opened).2 = .error e) :
    (JsonLogger.fAutoInitializeSession r fp fresh opened).1 = r := by
  cases hg : dictGet r fp with
  | some s =>
    by_cases hc : s.closed
    · simp only [JsonLogger.fAutoInitializeSession, hg, hc, Bool.not_true,
        Bool.false_eq_true, if_false] at h ⊢
      exact fCreateNewSession_fst_of_error r fp fresh opened e h
    · simp [JsonLogger.fAutoInitializeSession, hg, hc] at h
  | none =>
    simp only [JsonLogger.fAutoInitializeSession, hg] at h ⊢
    exact fCreateNewSession_fst_of_error r fp fresh opened e h

theorem fAttachExistingSession_fst (r : JsonLogger.FRegistry) (fp : String) :
    (JsonLogger.fAttachExistingSession r fp).1 = r := by
  cases hg : dictGet r fp with
  | some s =>
    by_cases hc : s.closed
    · simp [JsonLogger.fAttachExistingSession, hg, hc]
    · simp [JsonLogger.fAttachExistingSession, hg, hc]
  | none => simp [JsonLogger.fAttachExistingSession, hg]

theorem InitializeFile_fst_of_error (r : JsonLogger.FRegistry) (fp : String)
    (b : Nat) (vn : Bool) (opened : JsonLogger.OpenResult) (fresh : String)
    (e : StatusCode)
    (h : (JsonLogger.InitializeFile r fp b vn opened fresh).2 = .error e) :
    (JsonLogger.InitializeFile r fp b vn opened fresh).1 = r := by
  by_cases h₁ : vn
  · by_cases h₂ : b == DeviceComm.SESSION_INITIALIZATION_BEHAVIOR_UNSPECIFIED
    · simp only [JsonLogger.InitializeFile, h₁, h₂, Bool.not_true,
        Bool.false_eq_true, if_false, if_true] at h ⊢
      exact fAutoInitializeSession_fst_of_error r fp fresh opened e h
    · by_cases h₃ : b == DeviceComm.SESSION_INITIALIZATION_BEHAVIOR_INITIALIZE_NEW
      · simp only [JsonLogger.InitializeFile, h₁, h₂, h₃, Bool.not_true,
          Bool.false_eq_true, if_false, if_true] at h ⊢
        exact fCreateNewSession_fst_of_error r fp fresh opened e h
      · by_cases h₄ : b == DeviceComm.SESSION_INITIALIZATION_BEHAVIOR_ATTACH_TO_EXISTING
        · simp only [JsonLogger.InitializeFile, h₁, h₂, h₃, h₄, Bool.not_true,
            Bool.false_eq_true, if_false, if_true]
          exact fAttachExistingSession_fst r fp
        · simp [JsonLogger.InitializeFile, h₁, h₂, h₃, h₄]
  · simp [JsonLogger.InitializeFile, h₁]

theorem fCreateNewSession_fst_cases (r : JsonLogger.FRegistry)
    (fp fresh : String) (opened : JsonLogger.OpenResult) :
    (JsonLogger.fCreateNewSession r fp fresh opened).1 = r ∨
    (JsonLogger.fCreateNewSession r fp fresh opened).1
      = dictSet r fp { session_name := fresh, closed := false } := by
  by_cases hl : JsonLogger.fHasLiveSession r fp
  · exact Or.inl (by simp [JsonLogger.fCreateNewSession, hl])
  · cases opened <;> simp [JsonLogger.fCreateNewSession, hl]

theorem fAutoInitializeSession_fst_cases (r : JsonLogger.FRegistry)
    (fp fresh : String) (opened : JsonLogger.OpenResult) :
    (JsonLogger.fAutoInitializeSession r fp fresh opened).1 = r ∨
    (JsonLogger.fAutoInitializeSession r fp fresh opened).1
      = dictSet r fp { session_name := fresh, closed := false } := by
  cases hg : dictGet r fp with
  | some s =>
    by_cases hc : s.closed
    · simp only [JsonLogger.fAutoInitializeSession, hg, hc, Bool.not_true,
        Bool.false_eq_true, if_false]
      exact fCreateNewSession_fst_cases r fp fresh opened
    · exact Or.inl (by simp [JsonLogger.fAutoInitializeSession, hg, hc])
  | none =>
    simp only [JsonLogger.fAutoInitializeSession, hg]
    exact fCreateNewSession_fst_cases r fp fresh opened

theorem InitializeFile_fst_cases (r : JsonLogger.FRegistry) (fp : String)
    (b : Nat) (vn : Bool) (opened : JsonLogger.OpenResult) (fresh : String) :
    (JsonLogger.InitializeFile r fp b vn opened fresh).1 = r ∨
    (JsonLogger.InitializeFile r fp b vn opened fresh).1
      = dictSet r fp { session_name := fresh, closed := false } := by
  by_cases h₁ : vn
  · by_cases h₂ : b == DeviceComm.SESSION_INITIALIZATION_BEHAVIOR_UNSPECIFIED
    · simp only [JsonLogger.InitializeFile, h₁, h₂, Bool.not_true,
        Bool.false_eq_true, if_false, if_true]
      exact fAutoInitializeSession_fst_cases r fp fresh opened
    · by_cases h₃ : b == DeviceComm.SESSION_INITIALIZATION_BEHAVIOR_INITIALIZE_NEW
      · simp only [JsonLogger.InitializeFile, h₁, h₂, h₃, Bool.not_true,
          Bool.false_eq_true, if_false, if_true]
        exact fCreateNewSession_fst_cases r fp fresh opened
      · by_cases h₄ : b == DeviceComm.SESSION_INITIALIZATION_BEHAVIOR_ATTACH_TO_EXISTING
        · exact Or.inl (by
            simp only [JsonLogger.InitializeFile, h₁, h₂, h₃, h₄, Bool.not_true,
              Bool.false_eq_true, if_false, if_true]
            exact fAttachExistingSession_fst r fp)
        · exact Or.inl (by simp [JsonLogger.InitializeFile, h₁, h₂, h₃, h₄])
  · exact Or.inl (by simp [JsonLogger.InitializeFile, h₁])

theorem LogMeasurementData_fst (r : JsonLogger.FRegistry) (n : String)
    (w : JsonLogger.WriteResult) :
    (JsonLogger.LogMeasurementData r n w).1 = r := by
  cases hg : JsonLogger.fGetSessionByName r n with
  | some s => cases w <;> simp [JsonLogger.LogMeasurementData, hg]
  | none => simp [JsonLogger.LogMeasurementData, hg]

theorem CloseFile_fst_cases (r : JsonLogger.FRegistry) (n : String) :
    (JsonLogger.CloseFile r n).1 = r ∨
    ∃ fp, (JsonLogger.CloseFile r n).1 = dictPop r fp := by
  cases hp : JsonLogger.fGetFilePathBySessionName r n with
  | none => exact Or.inl (by simp [JsonLogger.CloseFile, hp])
  | some fp =>
    cases hg : dictGet r fp with
    | none => exact Or.inl (by simp [JsonLogger.CloseFile, hp, hg])
    | some s =>
      refine Or.inr ⟨fp, ?_⟩
      by_cases hc : s.closed
      · simp [JsonLogger.CloseFile, hp, hg, hc]
      · simp [JsonLogger.CloseFile, hp, hg, hc]

theorem freach_all_open (r : JsonLogger.FRegistry) (h : JsonLogger.FReach r) :
    ∀ p ∈ r, p.2.closed = false := by
  induction h with
  | empty => intro p hp; cases hp
  | rpcInit r fp b vn opened fresh hr ih =>
    intro p hp
    rcases InitializeFile_fst_cases r fp b vn opened fresh with he | he
    · exact ih p (he ▸ hp)
    · rw [he] at hp
      rcases mem_dictSet hp with hm | hm
      · exact ih p hm
      · rw [hm]
  | rpcLog r n w hr ih =>
    intro p hp
    exact ih p (LogMeasurementData_fst r n w ▸ hp)
  | rpcClose r n hr ih =>
    intro p hp
    rcases CloseFile_fst_cases r n with he | ⟨fp, he⟩
    · exact ih p (he ▸ hp)
    · rw [he] at hp
      exact ih p ((List.eraseP_sublist r).subset hp)
  | rpcCleanUp r hr ih =>
    intro p hp
    cases hp

/-! Theorems settling the claims. -/

/-- C1: the client adapter sends the mapped physical behavior for each
logical behavior exactly as claimed, but the close-on-exit half of the claim
fails on the cited client_session variant: its constructor stores the MAPPED
protobuf integer and the exit path compares that integer with logical
SessionInitializationBehavior members, so a client created with
INITIALIZE_SESSION_THEN_DETACH (stored value 1, numerically equal to
INITIALIZE_SERVER_SESSION) DOES call Close at scope exit, while one created
with ATTACH_TO_SESSION_THEN_CLOSE (stored value 2) NEVER does — the
opposite of the claimed policy. The sibling device_communication_client
variant, which stores the logical behavior, matches the claimed policy for
every behavior and new-session flag. -/
theorem C1_exit_close_policy :
    ClientSession.serverInitializationBehaviorMap .AUTO
      = DeviceComm.SESSION_INITIALIZATION_BEHAVIOR_UNSPECIFIED
    ∧ ClientSession.serverInitializationBehaviorMap .INITIALIZE_SERVER_SESSION
      = DeviceComm.SESSION_INITIALIZATION_BEHAVIOR_INITIALIZE_NEW
    ∧ ClientSession.serverInitializationBehaviorMap .ATTACH_TO_SERVER_SESSION
      = DeviceComm.SESSION_INITIALIZATION_BEHAVIOR_ATTACH_TO_EXISTING
    ∧ ClientSession.serverInitializationBehaviorMap .INITIALIZE_SESSION_THEN_DETACH
      = DeviceComm.SESSION_INITIALIZATION_BEHAVIOR_INITIALIZE_NEW
    ∧ ClientSession.serverInitializationBehaviorMap .ATTACH_TO_SESSION_THEN_CLOSE
      = DeviceComm.SESSION_INITIALIZATION_BEHAVIOR_ATTACH_TO_EXISTING
    ∧ ClientSession.clientSessionClosesOnExit .INITIALIZE_SESSION_THEN_DETACH false = true
    ∧ ClientSession.clientSessionClosesOnExit .INITIALIZE_SESSION_THEN_DETACH true = true
    ∧ ClientSession.clientSessionClosesOnExit .ATTACH_TO_SESSION_THEN_CLOSE false = false
    ∧ ClientSession.clientSessionClosesOnExit .ATTACH_TO_SESSION_THEN_CLOSE true = false
    ∧ ClientSession.specClosePolicy .INITIALIZE_SESSION_THEN_DETACH false = false
    ∧ ClientSession.specClosePolicy .ATTACH_TO_SESSION_THEN_CLOSE true = true
    ∧ (∀ b n, ClientSession.deviceCommunicationClientClosesOnExit b n
        = ClientSession.specClosePolicy b n) := by
  refine ⟨rfl, rfl, rfl, rfl, rfl, rfl, rfl, rfl, rfl, rfl, rfl, ?_⟩
  intro b n
  cases b <;> cases n <;> rfl

/-- C2: refuted by an explicit interleaving. The servicer runs the
existence check of the create path WITHOUT holding the registry lock and
only the insert under it, so two Initialize(k, CREATE_NEW) calls racing on
the same key can interleave check-check-insert-insert: starting from the
empty registry, a state is reachable in which BOTH workers have returned
new_session=true and the second insert has overwritten (leaked) the first
session — contradicting the claim that exactly one call succeeds and that
check plus insert form one atomic step under the lock. -/
theorem C2_create_new_race :
    Relation.ReflTransGen
      (ConcurrentCreate.raceStep "dev" ConcurrentCreate.firstRacerSession
        ConcurrentCreate.secondRacerSession)
      { registry := [], worker1 := .start, worker2 := .start }
      { registry := [("dev", ConcurrentCreate.secondRacerSession)],
        worker1 := .finished (.ok { session_name := "u1", new_session := true }),
        worker2 := .finished (.ok { session_name := "u2", new_session := true }) } := by
  have h₁ : ConcurrentCreate.raceStep "dev" ConcurrentCreate.firstRacerSession
      ConcurrentCreate.secondRacerSession
      { registry := [], worker1 := .start, worker2 := .start }
      { registry := [], worker1 := .readyToInsert, worker2 := .start } :=
    ConcurrentCreate.raceStep.left _ _ _
      (ConcurrentCreate.workerStep.checkFree _ rfl)
  have h₂ : ConcurrentCreate.raceStep "dev" ConcurrentCreate.firstRacerSession
      ConcurrentCreate.secondRacerSession
      { registry := [], worker1 := .readyToInsert, worker2 := .start }
      { registry := [], worker1 := .readyToInsert, worker2 := .readyToInsert } :=
    ConcurrentCreate.raceStep.right _ _ _
      (ConcurrentCreate.workerStep.checkFree _ rfl)
  have h₃ : ConcurrentCreate.raceStep "dev" ConcurrentCreate.firstRacerSession
      ConcurrentCreate.secondRacerSession
      { registry := [], worker1 := .readyToInsert, worker2 := .readyToInsert }
      { registry := [("dev", ConcurrentCreate.firstRacerSession)],
        worker1 := .finished (.ok { session_name := "u1", new_session := true }),
        worker2 := .readyToInsert } :=
    ConcurrentCreate.raceStep.left _ _ _
      (ConcurrentCreate.workerStep.lockedInsert _)
  have h₄ : ConcurrentCreate.raceStep "dev" ConcurrentCreate.firstRacerSession
      ConcurrentCreate.secondRacerSession
      { registry := [("dev", ConcurrentCreate.firstRacerSession)],
        worker1 := .finished (.ok { session_name := "u1", new_session := true }),
        worker2 := .readyToInsert }
      { registry := [("dev", ConcurrentCreate.secondRacerSession)],
        worker1 := .finished (.ok { session_name := "u1", new_session := true }),
        worker2 := .finished (.ok { session_name := "u2", new_session := true }) } :=
    ConcurrentCreate.raceStep.right _ _ _
      (ConcurrentCreate.workerStep.lockedInsert _)
  exact Relation.ReflTransGen.head h₁ (Relation.ReflTransGen.head h₂
    (Relation.ReflTransGen.head h₃ (Relation.ReflTransGen.single h₄)))

/-- C3: in both servicers, create with CREATE_NEW fails with AlreadyExists
exactly when the registry holds a live session for the requested key (live
in the sense of the liveness check of the servicer: an entry with nonempty
register data, respectively an open handle), and otherwise inserts a fresh
session under the key and returns the fresh session id with
new_session=true. -/
theorem C3_create_new_semantics (r : DeviceComm.Registry) (k : String)
    (proto : DeviceComm.Protocol) (path : String)
    (data : List (String × Int)) (reset : Bool) (fresh : String)
    (fr : JsonLogger.FRegistry) (fp ffresh : String)
    (opened : JsonLogger.OpenResult) :
    ((DeviceComm.createNewSession r k proto path data reset fresh).2
        = .error .alreadyExists ↔ DeviceComm.hasLiveSession r k = true)
    ∧ (DeviceComm.hasLiveSession r k = false →
        DeviceComm.createNewSession r k proto path data reset fresh
          = (dictSet r k
              { session_name := fresh, protocol := proto,
                register_map_path := path, register_data := data,
                reset := reset },
             .ok { session_name := fresh, new_session := true }))
    ∧ ((JsonLogger.fCreateNewSession fr fp ffresh opened).2
        = .error .alreadyExists ↔ JsonLogger.fHasLiveSession fr fp = true)
    ∧ (JsonLogger.fHasLiveSession fr fp = false →
        JsonLogger.fCreateNewSession fr fp ffresh .ok
          = (dictSet fr fp { session_name := ffresh, closed := false },
             .ok { session_name := ffresh, new_session := true })) := by
  refine ⟨⟨?_, ?_⟩, ?_, ⟨?_, ?_⟩, ?_⟩
  · intro h
    by_cases hl : DeviceComm.hasLiveSession r k
    · exact hl
    · simp [DeviceComm.createNewSession, hl] at h
  · intro hl
    simp [DeviceComm.createNewSession, hl]
  · intro hl
    simp [DeviceComm.createNewSession, hl]
  · intro h
    by_cases hl : JsonLogger.fHasLiveSession fr fp
    · exact hl
    · cases opened <;> simp [JsonLogger.fCreateNewSession, hl] at h
  · intro hl
    simp [JsonLogger.fCreateNewSession, hl]
  · intro hl
    simp [JsonLogger.fCreateNewSession, hl]

/-- Witness for C3: on the empty registry the create succeeds with the fresh
id, and on a registry holding a live session for the key it fails with
AlreadyExists. -/
theorem C3_witness :
    DeviceComm.createNewSession [] "dev" .SPI "m.csv" [("R0", 5)] false "u1"
      = ([("dev",
          { session_name := "u1", protocol := .SPI,
            register_map_path := "m.csv", register_data := [("R0", 5)],
            reset := false })],
         .ok { session_name := "u1", new_session := true })
    ∧ (DeviceComm.createNewSession
        [("dev",
          { session_name := "u1", protocol := .SPI,
            register_map_path := "m.csv", register_data := [("R0", 5)],
            reset := false })] "dev" .SPI "m.csv" [("R0", 5)] false "u2").2
      = .error .alreadyExists := by
  constructor
  · exact (C3_create_new_semantics [] "dev" .SPI "m.csv" [("R0", 5)] false
      "u1" [] "a.log" "u9" .ok).2.1 rfl
  · exact (C3_create_new_semantics
      [("dev",
        { session_name := "u1", protocol := .SPI,
          register_map_path := "m.csv", register_data := [("R0", 5)],
          reset := false })] "dev" .SPI "m.csv" [("R0", 5)] false "u2"
      [] "a.log" "u9" .ok).1.mpr rfl

/-- C4: in both servicers, attach with ATTACH_EXISTING never mutates the
registry; it returns the existing session id with new_session=false exactly
when the registry holds a live session for the requested key and fails with
NotFound otherwise; in particular, on the empty registry (before any create
for the key) it fails with NotFound. -/
theorem C4_attach_existing_semantics (r : DeviceComm.Registry) (k : String)
    (fr : JsonLogger.FRegistry) (fp : String) :
    ((DeviceComm.attachExistingSession r k).1 = r)
    ∧ (DeviceComm.hasLiveSession r k = false →
        (DeviceComm.attachExistingSession r k).2 = .error .notFound)
    ∧ (∀ s, dictGet r k = some s → s.register_data.isEmpty = false →
        (DeviceComm.attachExistingSession r k).2
          = .ok { session_name := s.session_name, new_session := false })
    ∧ ((JsonLogger.fAttachExistingSession fr fp).1 = fr)
    ∧ (JsonLogger.fHasLiveSession fr fp = false →
        (JsonLogger.fAttachExistingSession fr fp).2 = .error .notFound)
    ∧ (∀ s, dictGet fr fp = some s → s.closed = false →
        (JsonLogger.fAttachExistingSession fr fp).2
          = .ok { session_name := s.session_name, new_session := false })
    ∧ ((DeviceComm.attachExistingSession [] k).2 = .error .notFound)
    ∧ ((JsonLogger.fAttachExistingSession [] fp).2 = .error .notFound) := by
  refine ⟨attachExistingSession_fst r k, ?_, ?_, fAttachExistingSession_fst fr fp,
    ?_, ?_, ?_, ?_⟩
  · intro hl
    cases hg : dictGet r k with
    | some s =>
      have he : s.register_data.isEmpty = true := by
        simp only [DeviceComm.hasLiveSession, hg] at hl
        simpa using hl
      simp [DeviceComm.attachExistingSession, hg, he]
    | none => simp [DeviceComm.attachExistingSession, hg]
  · intro s hg he
    simp [DeviceComm.attachExistingSession, hg, he]
  · intro hl
    cases hg : dictGet fr fp with
    | some s =>
      have hc : s.closed = true := by
        simp only [JsonLogger.fHasLiveSession, hg] at hl
        simpa using hl
      simp [JsonLogger.fAttachExistingSession, hg, hc]
    | none => simp [JsonLogger.fAttachExistingSession, hg]
  · intro s hg hc
    simp [JsonLogger.fAttachExistingSession, hg, hc]
  · simp [DeviceComm.attachExistingSession, dictGet]
  · simp [JsonLogger.fAttachExistingSession, dictGet]

/-- Witness for C4: attach on the empty registry fails with NotFound and
leaves the registry unchanged; attach on a registry with a live session for
the key returns that session id with new_session=false. -/
theorem C4_witness :
    (DeviceComm.attachExistingSession [] "dev").2 = .error .notFound
    ∧ (DeviceComm.attachExistingSession [] "dev").1 = ([] : DeviceComm.Registry)
    ∧ (DeviceComm.attachExistingSession
        [("dev",
          { session_name := "u1", protocol := .SPI,
            register_map_path := "m.csv", register_data := [("R0", 5)],
            reset := false })] "dev").2
      = .ok { session_name := "u1", new_session := false } := by
  refine ⟨(C4_attach_existing_semantics [] "dev" [] "a.log").2.1 rfl,
    (C4_attach_existing_semantics [] "dev" [] "a.log").1, ?_⟩
  exact (C4_attach_existing_semantics
    [("dev",
      { session_name := "u1", protocol := .SPI,
        register_map_path := "m.csv", register_data := [("R0", 5)],
        reset := false })] "dev" [] "a.log").2.2.1
    { session_name := "u1", protocol := .SPI, register_map_path := "m.csv",
      register_data := [("R0", 5)], reset := false } rfl rfl

/-- C5: refuted at a reachable failing input. A register map CSV with a
header but no data rows passes every validation and yields an empty
register-data dictionary, and a session holding an empty dictionary fails
the liveness test of the AUTO path even though it is registered and was
never closed. Two consecutive AUTO Initialize calls for the same key with
no intervening Close then BOTH create: the first returns new_session=true
with id "u1" and the second returns new_session=true with the fresh id
"u2", where the claim (and the docstring of the auto handler) requires the
second call to return "u1" with new_session=false. -/
theorem C5_auto_twice_empty_register_map :
    (DeviceComm.Initialize []
        { resource_name := "dev", protocol := .SPI,
          register_map_path := "m.csv", initialization_behavior := 0,
          reset := false } true (.ok []) "u1").2
      = .ok { session_name := "u1", new_session := true }
    ∧ (DeviceComm.Initialize
        (DeviceComm.Initialize []
          { resource_name := "dev", protocol := .SPI,
            register_map_path := "m.csv", initialization_behavior := 0,
            reset := false } true (.ok []) "u1").1
        { resource_name := "dev", protocol := .SPI,
          register_map_path := "m.csv", initialization_behavior := 0,
          reset := false } true (.ok []) "u2").2
      = .ok { session_name := "u2", new_session := true } :=
  ⟨rfl, rfl⟩

/-- C6: once a session id has no registry entry, every per-operation call
bearing it fails with NotFound without mutating the registry: ReadRegister,
WriteRegister, the four GPIO reads and writes and Close of the device
servicer, LogMeasurementData and CloseFile of the file servicer; and (for
registries whose keys and session names are distinct, the Python dict and
fresh-uuid invariants) a Close or CloseFile that returned OK followed by a
second Close of the same id fails with NotFound. -/
theorem C6_operations_after_close_not_found :
    (∀ (r : DeviceComm.Registry) (n reg : String) (v : Int),
      DeviceComm.getSessionByName r n = none →
        DeviceComm.ReadRegister r n reg = (r, .error .notFound)
        ∧ DeviceComm.WriteRegister r n reg v = (r, .error .notFound)
        ∧ DeviceComm.Close r n = (r, .error .notFound))
    ∧ (∀ (r : DeviceComm.Registry) (n : String) (channel : Nat) (sim : Bool),
        DeviceComm.getSessionByName r n = none →
          DeviceComm.ReadGpioChannel r n channel sim
            = (r, .error .notFound))
    ∧ (∀ (r : DeviceComm.Registry) (n : String) (port channel : Nat)
        (state : Bool),
        DeviceComm.getSessionByName r n = none →
          DeviceComm.WriteGpioChannel r n port channel state
            = (r, .error .notFound))
    ∧ (∀ (r : DeviceComm.Registry) (n : String) (port mask sim : Nat),
        DeviceComm.getSessionByName r n = none →
          DeviceComm.ReadGpioPort r n port mask sim = (r, .error .notFound))
    ∧ (∀ (r : DeviceComm.Registry) (n : String) (port mask state : Nat),
        DeviceComm.getSessionByName r n = none →
          DeviceComm.WriteGpioPort r n port mask state
            = (r, .error .notFound))
    ∧ (∀ (fr : JsonLogger.FRegistry) (n : String)
        (w : JsonLogger.WriteResult),
        JsonLogger.fGetSessionByName fr n = none →
          JsonLogger.LogMeasurementData fr n w = (fr, .error .notFound))
    ∧ (∀ (fr : JsonLogger.FRegistry) (n : String),
        JsonLogger.fGetFilePathBySessionName fr n = none →
          JsonLogger.CloseFile fr n = (fr, .error .notFound))
    ∧ (∀ (r : DeviceComm.Registry) (n : String),
        KeysNodup r → NamesNodupBy DeviceComm.Session.session_name r →
        (DeviceComm.Close r n).2 = .ok () →
        (DeviceComm.Close (DeviceComm.Close r n).1 n).2 = .error .notFound)
    ∧ (∀ (fr : JsonLogger.FRegistry) (n : String),
        KeysNodup fr → NamesNodupBy JsonLogger.FSession.session_name fr →
        (JsonLogger.CloseFile fr n).2 = .ok () →
        (JsonLogger.CloseFile (JsonLogger.CloseFile fr n).1 n).2
          = .error .notFound) := by
  refine ⟨?_, ?_, ?_, ?_, ?_, ?_, ?_, ?_, ?_⟩
  · intro r n reg v h
    exact ⟨by simp [DeviceComm.ReadRegister, h],
      by simp [DeviceComm.WriteRegister, h], by simp [DeviceComm.Close, h]⟩
  · intro r n channel sim h
    simp [DeviceComm.ReadGpioChannel, h]
  · intro r n port channel state h
    simp [DeviceComm.WriteGpioChannel, h]
  · intro r n port mask sim h
    simp [DeviceComm.ReadGpioPort, h]
  · intro r n port mask state h
    simp [DeviceComm.WriteGpioPort, h]
  · intro fr n w h
    simp [JsonLogger.LogMeasurementData, h]
  · intro fr n h
    simp [JsonLogger.CloseFile, h]
  · intro r n hk hn _
    have hnone := getSessionByName_Close_none r n hk hn
    generalize hg : (DeviceComm.Close r n).1 = r₁ at hnone ⊢
    simp [DeviceComm.Close, hnone]
  · intro fr n hk hn _
    have hnone := fGetFilePathBySessionName_CloseFile_none fr n hk hn
    generalize hg : (JsonLogger.CloseFile fr n).1 = r₁ at hnone ⊢
    simp [JsonLogger.CloseFile, hnone]

/-- Witness for C6: closing the only live session of a one-entry registry
succeeds, and a second Close of the same id fails with NotFound; an unknown
id fails with NotFound on a fresh registry for the register and GPIO
operations alike. -/
theorem C6_witness :
    (DeviceComm.Close
      [("dev",
        { session_name := "sid", protocol := .SPI,
          register_map_path := "m.csv", register_data := [("R0", 5)],
          reset := false })] "sid").2 = .ok ()
    ∧ (DeviceComm.Close
        (DeviceComm.Close
          [("dev",
            { session_name := "sid", protocol := .SPI,
              register_map_path := "m.csv", register_data := [("R0", 5)],
              reset := false })] "sid").1 "sid").2 = .error .notFound
    ∧ DeviceComm.ReadRegister [] "sid" "R0"
      = (([] : DeviceComm.Registry), .error .notFound)
    ∧ DeviceComm.ReadGpioChannel [] "sid" 0 false
      = (([] : DeviceComm.Registry), .error .notFound)
    ∧ DeviceComm.WriteGpioChannel [] "sid" 0 0 true
      = (([] : DeviceComm.Registry), .error .notFound)
    ∧ DeviceComm.ReadGpioPort [] "sid" 0 255 0
      = (([] : DeviceComm.Registry), .error .notFound)
    ∧ DeviceComm.WriteGpioPort [] "sid" 0 255 1
      = (([] : DeviceComm.Registry), .error .notFound) := by
  refine ⟨rfl, ?_, ?_, ?_, ?_, ?_, ?_⟩
  · exact C6_operations_after_close_not_found.2.2.2.2.2.2.2.1
      [("dev",
        { session_name := "sid", protocol := .SPI,
          register_map_path := "m.csv", register_data := [("R0", 5)],
          reset := false })] "sid" (by decide) (by decide) rfl
  · exact (C6_operations_after_close_not_found.1 [] "sid" "R0" 0 rfl).1
  · exact C6_operations_after_close_not_found.2.1 [] "sid" 0 false rfl
  · exact C6_operations_after_close_not_found.2.2.1 [] "sid" 0 0 true rfl
  · exact C6_operations_after_close_not_found.2.2.2.1 [] "sid" 0 255 0 rfl
  · exact C6_operations_after_close_not_found.2.2.2.2.1 [] "sid" 0 255 1 rfl

/-- C7: a failed Initialize leaves the registry exactly as it was before the
call, in both servicers: whenever the call returns an error — a validation
failure, an unknown behavior, AlreadyExists, NotFound or a driver failure —
the resulting registry equals the input registry. -/
theorem C7_failed_init_preserves_registry :
    (∀ (r : DeviceComm.Registry) (req : DeviceComm.InitializeRequest)
      (fe : Bool) (csv : DeviceComm.CsvReadResult) (fresh : String)
      (e : StatusCode),
      (DeviceComm.Initialize r req fe csv fresh).2 = .error e →
      (DeviceComm.Initialize r req fe csv fresh).1 = r)
    ∧ (∀ (fr : JsonLogger.FRegistry) (fp : String) (b : Nat) (vn : Bool)
      (opened : JsonLogger.OpenResult) (fresh : String) (e : StatusCode),
      (JsonLogger.InitializeFile fr fp b vn opened fresh).2 = .error e →
      (JsonLogger.InitializeFile fr fp b vn opened fresh).1 = fr) :=
  ⟨fun r req fe csv fresh e h => Initialize_fst_of_error r req fe csv fresh e h,
   fun fr fp b vn opened fresh e h =>
    InitializeFile_fst_of_error fr fp b vn opened fresh e h⟩

/-- Witness for C7: an Initialize rejected for a bad register-map extension
leaves the empty registry empty, and an InitializeFile rejected by NDJSON
validation leaves its registry unchanged. -/
theorem C7_witness :
    (DeviceComm.Initialize []
      { resource_name := "dev", protocol := .SPI,
        register_map_path := "x.txt", initialization_behavior := 1,
        reset := false } true (.ok []) "u1").1 = ([] : DeviceComm.Registry)
    ∧ (JsonLogger.InitializeFile [("a.log", { session_name := "u1", closed := false })]
        "b.xyz" 1 false .ok "u2").1
      = [("a.log", { session_name := "u1", closed := false })] := by
  refine ⟨C7_failed_init_preserves_registry.1 []
    { resource_name := "dev", protocol := .SPI,
      register_map_path := "x.txt", initialization_behavior := 1,
      reset := false } true (.ok []) "u1" .invalidArgument rfl, ?_⟩
  exact C7_failed_init_preserves_registry.2
    [("a.log", { session_name := "u1", closed := false })] "b.xyz" 1 false .ok
    "u2" .invalidArgument rfl

/-- C8: no zombie entries. In every registry state of the file servicer
reachable through its RPC surface, every registered session has an open
handle; and closing removes the registry entry outright in both servicers:
after a Close (respectively CloseFile) no entry under the closed session id
remains, for registries with distinct keys and session names. -/
theorem C8_no_zombie_entries :
    (∀ fr, JsonLogger.FReach fr → ∀ p ∈ fr, p.2.closed = false)
    ∧ (∀ (r : DeviceComm.Registry) (n : String),
        KeysNodup r → NamesNodupBy DeviceComm.Session.session_name r →
        DeviceComm.getSessionByName (DeviceComm.Close r n).1 n = none)
    ∧ (∀ (fr : JsonLogger.FRegistry) (n : String),
        KeysNodup fr → NamesNodupBy JsonLogger.FSession.session_name fr →
        JsonLogger.fGetFilePathBySessionName (JsonLogger.CloseFile fr n).1 n
          = none) :=
  ⟨freach_all_open, getSessionByName_Close_none,
   fGetFilePathBySessionName_CloseFile_none⟩

/-- Witness for C8: the session inserted by a concrete InitializeFile call
on the empty registry has an open handle, and closing the single session of
a concrete device registry removes its entry. -/
theorem C8_witness :
    (("a.log", ({ session_name := "u1", closed := false } : JsonLogger.FSession)) :
        String × JsonLogger.FSession).2.closed = false
    ∧ DeviceComm.getSessionByName
      (DeviceComm.Close
        [("dev",
          { session_name := "sid", protocol := .SPI,
            register_map_path := "m.csv", register_data := [("R0", 5)],
            reset := false })] "sid").1 "sid" = none := by
  constructor
  · exact C8_no_zombie_entries.1
      (JsonLogger.InitializeFile [] "a.log" 0 true .ok "u1").1
      (JsonLogger.FReach.rpcInit [] "a.log" 0 true .ok "u1"
        JsonLogger.FReach.empty)
      ("a.log", { session_name := "u1", closed := false }) (by decide)
  · exact C8_no_zombie_entries.2.1
      [("dev",
        { session_name := "sid", protocol := .SPI,
          register_map_path := "m.csv", register_data := [("R0", 5)],
          reset := false })] "sid" (by decide) (by decide)

/-- C9: on any session the validate_session scan finds, WriteRegister
succeeds for every register name — including names absent from the register
data, since dictionary assignment cannot fail — and a ReadRegister of the
same name on the same session then returns the value just written. -/
theorem C9_write_then_read (r : DeviceComm.Registry) (n reg : String)
    (v : Int) (s : DeviceComm.Session)
    (h : DeviceComm.getSessionByName r n = some s) :
    (DeviceComm.WriteRegister r n reg v).2 = .ok ()
    ∧ (DeviceComm.ReadRegister (DeviceComm.WriteRegister r n reg v).1 n reg).2
      = .ok v := by
  constructor
  · simp [DeviceComm.WriteRegister, h]
  · have hupd := getSessionByName_updateSessionByName r n
      (fun s => { s with register_data := dictSet s.register_data reg v }) s h
      rfl
    simp [DeviceComm.WriteRegister, h, DeviceComm.ReadRegister, hupd,
      dictContains_dictSet_self, dictGet_dictSet_self]

/-- Witness for C9: writing a register name that is NOT present in the
register data of a live session succeeds, and reading it back returns the
written value. -/
theorem C9_witness :
    (DeviceComm.WriteRegister
      [("dev",
        { session_name := "sid", protocol := .SPI,
          register_map_path := "m.csv", register_data := [("R0", 5)],
          reset := false })] "sid" "NEW" 7).2 = .ok ()
    ∧ (DeviceComm.ReadRegister
        (DeviceComm.WriteRegister
          [("dev",
            { session_name := "sid", protocol := .SPI,
              register_map_path := "m.csv", register_data := [("R0", 5)],
              reset := false })] "sid" "NEW" 7).1 "sid" "NEW").2 = .ok 7 :=
  C9_write_then_read
    [("dev",
      { session_name := "sid", protocol := .SPI,
        register_map_path := "m.csv", register_data := [("R0", 5)],
        reset := false })] "sid" "NEW" 7
    { session_name := "sid", protocol := .SPI, register_map_path := "m.csv",
      register_data := [("R0", 5)], reset := false } rfl

/-- C10: Close on a session that is registered but whose register-data
dictionary is empty both mutates the registry and errors: the entry is
popped, and the already-closed NOT_FOUND abort raised after the pop is
swallowed by the generic exception handler of the try block and re-raised
as INTERNAL, so the call returns Internal (not NotFound) with the entry
removed. -/
theorem C10_close_empty_register_data (r : DeviceComm.Registry)
    (n k : String) (s : DeviceComm.Session)
    (hfind : r.find? (fun p => p.2.session_name == n) = some (k, s))
    (hempty : s.register_data = []) (hkeys : KeysNodup r)
    (hnames : NamesNodupBy DeviceComm.Session.session_name r) :
    (DeviceComm.Close r n).2 = .error .internal
    ∧ DeviceComm.getSessionByName (DeviceComm.Close r n).1 n = none
    ∧ (DeviceComm.Close r n).1 ≠ r := by
  have hmem : (k, s) ∈ r := List.mem_of_find?_eq_some hfind
  have hkey := find_key_of_mem_nodup hmem hkeys
  have hnone := getSessionByName_Close_none r n hkeys hnames
  refine ⟨?_, hnone, ?_⟩
  · simp [DeviceComm.Close, DeviceComm.getSessionByName,
      DeviceComm.getResourceNameBySession, dictGet, hfind, hkey, hempty]
  · intro hcontra
    rw [hcontra] at hnone
    simp [DeviceComm.getSessionByName, hfind] at hnone

/-- Witness for C10: closing the registered session with an empty register
dictionary returns Internal and leaves the registry without the entry. -/
theorem C10_witness :
    (DeviceComm.Close
      [("dev",
        { session_name := "sid", protocol := .SPI,
          register_map_path := "m.csv", register_data := [], reset := false })]
      "sid").2 = .error .internal
    ∧ DeviceComm.getSessionByName
      (DeviceComm.Close
        [("dev",
          { session_name := "sid", protocol := .SPI,
            register_map_path := "m.csv", register_data := [],
            reset := false })] "sid").1 "sid" = none := by
  have h := C10_close_empty_register_data
    [("dev",
      { session_name := "sid", protocol := .SPI,
        register_map_path := "m.csv", register_data := [], reset := false })]
    "sid" "dev"
    { session_name := "sid", protocol := .SPI, register_map_path := "m.csv",
      register_data := [], reset := false } rfl rfl (by decide) (by decide)
  exact ⟨h.1, h.2.1⟩

end SessionSharing
